import Mathlib

/-!
Verification of the booking and slot lifecycle engine of the Mintoctopusbot
repository.  The relevant handlers of `working_bot.py` and the persistence
layer of `services/safe_data_manager.py` are shallowly embedded below:
Python dicts become structures whose possibly-missing keys are `Option`
fields, `dict.get(k)` reads the field, `dict[k]` is a `match` whose `none`
branch reproduces the `KeyError` path of the source, and wall-clock
timestamps are minutes of the proleptic Gregorian calendar.  Handlers are
pure functions from the document (plus the scheduler job list) to the new
document, the new job list and a trace of save / notify events.
-/

namespace Mintoctopus

/-! ### Calendar model

`datetime.strptime(f"{date} {time}", "%Y-%m-%d %H:%M")` is modelled by a
parser for zero-padded `YYYY-MM-DD` / `HH:MM` strings with Gregorian range
checks; a successfully parsed instant is its total number of minutes, so
comparison and the `- 60min` / `- 15min` reminder arithmetic of the source
are `Nat` comparison and subtraction. -/

def isLeap (y : Nat) : Bool :=
  (y % 4 == 0 && y % 100 != 0) || y % 400 == 0

def daysInMonth (y m : Nat) : Nat :=
  if m == 2 then (if isLeap y then 29 else 28)
  else if m == 4 || m == 6 || m == 9 || m == 11 then 30
  else 31

def daysBeforeMonth (y m : Nat) : Nat :=
  (List.range (m - 1)).foldl (fun acc i => acc + daysInMonth y (i + 1)) 0

/-- Minutes elapsed since 0001-01-01 00:00 of the proleptic Gregorian
calendar, the order-faithful timestamp of a `datetime` value. -/
def civilMinutes (y m d h mi : Nat) : Nat :=
  (((y - 1) * 365 + (y - 1) / 4 - (y - 1) / 100 + (y - 1) / 400
      + daysBeforeMonth y m + (d - 1)) * 24 + h) * 60 + mi

def splitOnChar (c : Char) : List Char → List (List Char)
  | [] => [[]]
  | x :: xs =>
    let rest := splitOnChar c xs
    if x == c then [] :: rest
    else
      match rest with
      | [] => [[x]]
      | g :: gs => (x :: g) :: gs

def digitVal? (c : Char) : Option Nat :=
  let n := c.toNat
  if 48 ≤ n && n ≤ 57 then some (n - 48) else none

def digitsValAux : Nat → List Char → Option Nat
  | acc, [] => some acc
  | acc, c :: cs =>
    match digitVal? c with
    | some d => digitsValAux (acc * 10 + d) cs
    | none => none

/-- Decimal value of a nonempty all-digit character run. -/
def digitsVal? : List Char → Option Nat
  | [] => none
  | l => digitsValAux 0 l

def parseDate? (s : String) : Option (Nat × Nat × Nat) :=
  match splitOnChar '-' s.data with
  | [ys, ms, ds] =>
    match digitsVal? ys, digitsVal? ms, digitsVal? ds with
    | some y, some m, some d =>
      if 1 ≤ m && m ≤ 12 && 1 ≤ d && d ≤ daysInMonth y m then some (y, m, d) else none
    | _, _, _ => none
  | _ => none

def parseTime? (s : String) : Option (Nat × Nat) :=
  match splitOnChar ':' s.data with
  | [hs, ms] =>
    match digitsVal? hs, digitsVal? ms with
    | some h, some mi => if h ≤ 23 && mi ≤ 59 then some (h, mi) else none
    | _, _ => none
  | _ => none

/-- Model of `datetime.strptime(f"{date} {time}", "%Y-%m-%d %H:%M")`:
`none` is the `ValueError` branch of the source. -/
def parseDT? (date time : String) : Option Nat :=
  match parseDate? date, parseTime? time with
  | some (y, m, d), some (h, mi) => some (civilMinutes y m d h mi)
  | _, _ => none

/-! ### Data model (persistence document) -/

/-- A published slot dict.  `is_booked` is the device-slot marker set by
`process_device_booking`. -/
structure Slot where
  date : Option String := none
  start_time : Option String := none
  end_time : Option String := none
  location : Option String := none
  is_booked : Bool := false
deriving Repr, DecidableEq

/-- A booking dict; master bookings and device bookings share this shape,
each path filling only its own keys (a missing key is `none`). -/
structure Booking where
  id : Option String := none
  client_id : Option String := none
  client_name : Option String := none
  master_id : Option String := none
  master_name : Option String := none
  device_id : Option String := none
  device_name : Option String := none
  slot_date : Option String := none
  slot_start_time : Option String := none
  slot_end_time : Option String := none
  location : Option String := none
  slot_location : Option String := none
  status : Option String := none
  created_at : Option String := none
  decline_reason : Option String := none
  is_equipment : Bool := false
  is_device : Bool := false
deriving Repr, DecidableEq

structure Master where
  telegram_id : Option String := none
  name : Option String := none
  time_slots : List Slot := []
  bookings : List Booking := []
  is_active : Bool := true
  is_equipment : Bool := false
deriving Repr, DecidableEq

structure Device where
  id : Option String := none
  name : Option String := none
  location : Option String := none
  time_slots : List Slot := []
  is_active : Bool := true
deriving Repr, DecidableEq

/-- The shared JSON document (`data/database.json`). -/
structure Data where
  masters : List Master := []
  bookings : List Booking := []
  device_bookings : List Booking := []
  devices : List Device := []
deriving Repr, DecidableEq

/-- An APScheduler date job registered by `scheduler.add_job`. -/
structure Job where
  jobId : String
  run_date : Nat
  chat_id : String
deriving Repr, DecidableEq

/-- Externally visible effects of a handler, in program order:
a durable write of the document or a message sent to a chat. -/
inductive Event where
  | saveEv : Data → Event
  | notifyEv : String → String → Event
deriving Repr, DecidableEq

/-- `booking.get("status") in ["pending", "confirmed"]`. -/
def isActiveStatus (b : Booking) : Bool :=
  b.status == some "pending" || b.status == some "confirmed"

/-! ### Availability calculator (`count_available_slots`) -/

/-- The slot-taken test of `count_available_slots` (`working_bot.py`
lines 1479-1485): some booking of the master matches the slot's date and
start time with an active status. -/
def slotBooked (bookings : List Booking) (slot : Slot) : Bool :=
  bookings.any fun b =>
    b.slot_date == slot.date && b.slot_start_time == slot.start_time && isActiveStatus b

/-- `count_available_slots` (`working_bot.py` lines 1449-1489).  The source
reads `datetime.now()` itself; the embedding passes the instant `now`
explicitly.  A slot with a missing date or start time is skipped, a slot
whose datetime fails to parse is skipped (`ValueError` branch), a slot with
`slot_datetime <= now` is skipped, and a slot held by an active booking is
not counted. -/
def count_available_slots (master : Master) (now : Nat) : Nat :=
  (master.time_slots.filter fun slot =>
    match slot.date, slot.start_time with
    | some d, some st =>
      match parseDT? d st with
      | some t => decide (now < t) && !(slotBooked master.bookings slot)
      | none => false
    | _, _ => false).length

/-- Modelled from the spec: available slots are
`time_slots − {slots matching an active booking} − {slots with start ≤ now}`,
where a slot whose `date + start_time` is missing or fails to parse is
treated as unavailable (fail-closed). -/
def specAvailableSlots (slots : List Slot) (bookings : List Booking) (now : Nat) : List Slot :=
  (slots.filter fun s => !(slotBooked bookings s)).filter fun s =>
    match s.date, s.start_time with
    | some d, some st =>
      match parseDT? d st with
      | some t => decide (now < t)
      | none => false
    | _, _ => false

/-- The per-slot admission filter of `show_slots_by_date` (`working_bot.py`
lines 2194-2226), returning the `(master, slot)` pairs the listing offers
for `selected_date` (the source then only groups them by time range for
display).  An inactive master is skipped, a slot of another date is
skipped; the past-check runs ONLY when `slot.get("start_time")` is truthy
(a missing or empty start time skips the check entirely), and the
taken-test consults only the top-level `data["bookings"]` list, matching on
date, start time and master id with an active status. -/
def show_slots_by_date_listed (data : Data) (selected_date : String) (now : Nat) :
    List (Master × Slot) :=
  data.masters.flatMap fun master =>
    if !master.is_active then []
    else
      (master.time_slots.filter fun slot =>
        (slot.date == some selected_date) &&
          (match slot.start_time with
           | some st =>
             if st != "" then
               match parseDT? selected_date st with
               | some t => decide (now < t)
               | none => false
             else true
           | none => true) &&
          !(data.bookings.any fun b =>
            b.slot_date == slot.date && b.slot_start_time == slot.start_time &&
              b.master_id == master.telegram_id && isActiveStatus b)).map
        fun slot => (master, slot)

/-! ### Reminder scheduler -/

/-- `scheduler.add_job(..., id=...)`: APScheduler raises
`ConflictingIdError` when a job with the same id already exists; `none` is
that exception (caught by the caller's `try`). -/
def add_job (sched : List Job) (j : Job) : Option (List Job) :=
  if sched.any fun j2 => j2.jobId == j.jobId then none else some (sched ++ [j])

/-- `schedule_single_reminder` (`working_bot.py` lines 127-190).  Its body
is one `try`: the GPT message builders read `booking_data['master_name']`,
`booking_data['client_name']`, `booking_data['slot_start_time']` and
`booking_data['slot_end_time']` with direct indexing, so a booking missing
any of those keys raises `KeyError` before any `add_job`, the exception is
logged and no job is armed.  For equipment only the client job is armed;
otherwise the master job is added first and the client job second, a
failure in either aborting the rest of the `try`. -/
def schedule_single_reminder (b : Booking) (reminder_time : Nat) (rtype : String)
    (is_equipment : Bool) (sched : List Job) : List Job :=
  match b.master_name, b.client_name, b.slot_start_time, b.slot_end_time with
  | some _, some _, some _, some _ =>
    let bid := b.id.getD "unknown"
    if is_equipment then
      match b.client_id with
      | some cid =>
        match add_job sched ⟨"reminder_client_" ++ bid ++ "_" ++ rtype, reminder_time, cid⟩ with
        | some sched1 => sched1
        | none => sched
      | none => sched
    else
      match b.master_id with
      | some mid =>
        match add_job sched ⟨"reminder_master_" ++ bid ++ "_" ++ rtype, reminder_time, mid⟩ with
        | some sched1 =>
          match b.client_id with
          | some cid =>
            match add_job sched1 ⟨"reminder_client_" ++ bid ++ "_" ++ rtype, reminder_time, cid⟩ with
            | some sched2 => sched2
            | none => sched1
          | none => sched1
        | none => sched
      | none => sched
  | _, _, _, _ => sched

/-- `schedule_reminder` (`working_bot.py` lines 192-222): parse
`f"{slot_date} {slot_start_time}"`, compute the 1-hour and the 15-minute
fire times and arm each only when it is still strictly in the future.  A
missing key or a parse failure is the caught exception branch: no job. -/
def schedule_reminder (b : Booking) (is_equipment : Bool) (now : Nat)
    (sched : List Job) : List Job :=
  match b.slot_date, b.slot_start_time with
  | some d, some st =>
    match parseDT? d st with
    | some t =>
      let s1 := if now < t - 60 then schedule_single_reminder b (t - 60) "1_hour" is_equipment sched
                else sched
      if now < t - 15 then schedule_single_reminder b (t - 15) "15_min" is_equipment s1 else s1
    | none => sched
  | _, _ => sched

/-- The date trigger of the background dispatcher: at instant `t` every job
whose `run_date` has been reached fires once, sending its reminder message
to its chat, and leaves the scheduler. -/
def fire_due (sched : List Job) (t : Nat) : List Job × List Event :=
  (sched.filter fun j => !(j.run_date ≤ t),
   (sched.filter fun j => j.run_date ≤ t).map fun j => .notifyEv j.chat_id "reminder")

/-! ### Booking state machine -/

/-- Replace the first list element satisfying `p` (the source mutates the
found dict in place, which aliases the entry of `data["masters"]`). -/
def replaceFirstMaster : List Master → (Master → Bool) → Master → List Master
  | [], _, _ => []
  | m :: ms, p, m' => if p m then m' :: ms else m :: replaceFirstMaster ms p m'

def findMaster (data : Data) (mid : String) : Option Master :=
  data.masters.find? fun m => m.telegram_id == some mid

inductive BookOutcome where
  | masterNotFound
  | slotNotFound
  | limitExceeded
  | slotUnavailable
  | created
deriving Repr, DecidableEq

/-- The `is_booked` test of `process_time_booking_request`
(`working_bot.py` lines 2300-2307), over the top-level bookings list. -/
def activeOnTuple (mid sdate stime : String) (b : Booking) : Bool :=
  b.slot_date == some sdate && b.slot_start_time == some stime &&
    b.master_id == some mid && isActiveStatus b

/-- `process_booking_request` (`working_bot.py` lines 1697-1800), the
slot-index booking path.  The source looks the master up, bounds-checks the
slot index, counts the client's bookings with this master whose status is
exactly `"confirmed"` and refuses at two or more, then unconditionally
appends a fresh `pending` booking to `master["bookings"]`, saves, and
notifies the client and the master.  No slot-availability check of any kind
is performed on this path. -/
def process_booking_request (data : Data) (client_id client_name master_id : String)
    (slot_idx : Nat) (nowIso : String) : BookOutcome × Data × List Event :=
  match findMaster data master_id with
  | none => (.masterNotFound, data, [.notifyEv client_id "master_not_found"])
  | some master =>
    match master.time_slots[slot_idx]? with
    | none => (.slotNotFound, data, [.notifyEv client_id "slot_not_found"])
    | some slot =>
      let client_bookings_count := (master.bookings.filter fun b =>
        b.client_id == some client_id && b.status == some "confirmed").length
      if 2 ≤ client_bookings_count then
        (.limitExceeded, data, [.notifyEv client_id "limit_reached"])
      else
        let booking : Booking :=
          { client_id := some client_id, client_name := some client_name,
            master_id := some master_id, master_name := some (master.name.getD "Мастер"),
            slot_date := slot.date, slot_start_time := slot.start_time,
            slot_end_time := slot.end_time, location := slot.location,
            status := some "pending", created_at := some nowIso }
        let master' := { master with bookings := master.bookings ++ [booking] }
        let data' := { data with
          masters := replaceFirstMaster data.masters (fun m => m.telegram_id == some master_id) master' }
        (.created, data',
         [.saveEv data', .notifyEv client_id "request_sent", .notifyEv master_id "new_request"])

/-- `process_time_booking_request` (`working_bot.py` lines 2288-2417), the
by-time booking path.  The target slot is matched by `(date, start_time)`
in the master's `time_slots`; the availability gate is `is_booked` over the
top-level `data["bookings"]` list only.  A fresh booking is appended with
status `"pending"` and saved; for equipment the status of the appended dict
is then flipped to `"confirmed"` and saved again, the client is acked and
`schedule_reminder` is called; otherwise the master is notified (skipped
for the virtual id or a non-numeric chat id) and the client is acked. -/
def process_time_booking_request (data : Data) (user_id user_name master_id slot_time slot_date : String)
    (bid nowIso : String) (now : Nat) (sched : List Job) :
    BookOutcome × Data × List Job × List Event :=
  match findMaster data master_id with
  | none => (.masterNotFound, data, sched, [.notifyEv user_id "not_found"])
  | some master =>
    match master.time_slots.find? (fun s => s.date == some slot_date && s.start_time == some slot_time) with
    | none => (.slotNotFound, data, sched, [.notifyEv user_id "slot_not_found"])
    | some target_slot =>
      let is_booked := data.bookings.any (activeOnTuple master_id slot_date slot_time)
      if is_booked then
        (.slotUnavailable, data, sched, [.notifyEv user_id "slot_unavailable"])
      else
        let booking : Booking :=
          { id := some bid, client_id := some user_id, client_name := some user_name,
            master_id := some master_id, master_name := some (master.name.getD "Мастер"),
            slot_date := some slot_date, slot_start_time := some slot_time,
            slot_end_time := target_slot.end_time,
            slot_location := some (target_slot.location.getD "Локация не указана"),
            status := some "pending", created_at := some nowIso,
            is_equipment := master.is_equipment }
        let data1 := { data with bookings := data.bookings ++ [booking] }
        if master.is_equipment then
          let booking2 := { booking with status := some "confirmed" }
          let data2 := { data with bookings := data.bookings ++ [booking2] }
          let sched' := schedule_reminder booking2 true now sched
          (.created, data2, sched',
           [.saveEv data1, .saveEv data2, .notifyEv user_id "created"])
        else
          let masterEvs :=
            if master_id != "vibro_chair_virtual" && master_id.toNat?.isSome then
              [Event.notifyEv master_id "new_request"]
            else []
          (.created, data1, sched,
           .saveEv data1 :: masterEvs ++ [.notifyEv user_id "created"])

inductive RespondOutcome where
  | masterNotFound
  | bookingNotFound
  | confirmedOk
  | declineAskReason
deriving Repr, DecidableEq

/-- Status (second projection) of the booking at `idx` of the master owned
by `uid`, used to state post-conditions. -/
def bookingAt (data : Data) (uid : String) (idx : Nat) : Option Booking :=
  (findMaster data uid).bind fun m => m.bookings[idx]?

/-- The `confirm` branch of `handle_booking_response` (`working_bot.py`
lines 738-826).  The caller's own master record is looked up by chat id and
`bookings[booking_index]` is taken with only a bounds check — the current
status is never examined.  The status is set to `"confirmed"`, the document
saved, the master acked; then a `try` notifies the client and, when
`session_start − 15min` is still in the future, arms one client job and one
master job both at that single fire time (ids keyed by chat id and booking
index).  There is no 60-minute job on this path, and an exception anywhere
in the `try` (missing client id, unparseable slot datetime, conflicting job
id) silently skips the remainder. -/
def handle_booking_response_confirm (data : Data) (user_id : String) (booking_index : Nat)
    (now : Nat) (sched : List Job) : RespondOutcome × Data × List Job × List Event :=
  match findMaster data user_id with
  | none => (.masterNotFound, data, sched, [.notifyEv user_id "master_not_found"])
  | some master =>
    match master.bookings[booking_index]? with
    | none => (.bookingNotFound, data, sched, [.notifyEv user_id "booking_not_found"])
    | some booking =>
      let booking' := { booking with status := some "confirmed" }
      let master' := { master with bookings := master.bookings.set booking_index booking' }
      let data' := { data with
        masters := replaceFirstMaster data.masters (fun m => m.telegram_id == some user_id) master' }
      match booking.client_id with
      | none => (.confirmedOk, data', sched, [.saveEv data', .notifyEv user_id "ack"])
      | some cid =>
        let evs := [Event.saveEv data', .notifyEv user_id "ack", .notifyEv cid "booking_confirmed"]
        match booking.slot_date, booking.slot_start_time with
        | some d, some st =>
          match parseDT? d st with
          | some t =>
            if now < t - 15 then
              match add_job sched ⟨"reminder_client_" ++ (cid ++ ("_" ++ toString booking_index)),
                                   t - 15, cid⟩ with
              | none => (.confirmedOk, data', sched, evs)
              | some sched1 =>
                match add_job sched1
                    ⟨"reminder_master_" ++ (user_id ++ ("_" ++ toString booking_index)),
                     t - 15, user_id⟩ with
                | none => (.confirmedOk, data', sched1, evs)
                | some sched2 => (.confirmedOk, data', sched2, evs)
            else (.confirmedOk, data', sched, evs)
          | none => (.confirmedOk, data', sched, evs)
        | _, _ => (.confirmedOk, data', sched, evs)

/-- The `decline` branch of `handle_booking_response` (`working_bot.py`
lines 828-836): no booking is modified and nothing is saved; the caller's
conversation state is set to await `decline_reason_{booking_index}`, the
returned index modelling that recorded follow-up key. -/
def handle_booking_response_decline (data : Data) (user_id : String) (booking_index : Nat) :
    RespondOutcome × Data × Option Nat :=
  match findMaster data user_id with
  | none => (.masterNotFound, data, none)
  | some master =>
    match master.bookings[booking_index]? with
    | none => (.bookingNotFound, data, none)
    | some _ => (.declineAskReason, data, some booking_index)

inductive DeclineOutcome where
  | masterNotFound
  | bookingNotFound
  | declinedOk
deriving Repr, DecidableEq

/-- `process_decline_reason` (`working_bot.py` lines 419-487), the second
step of the decline protocol: the awaited booking index is re-resolved in
the caller's master record, the booking's status is set to `"declined"`
and `decline_reason` to the incoming message text unconditionally — the
text is not checked for emptiness — then the document is saved, the master
acked and the client notified with the reason. -/
def process_decline_reason (data : Data) (user_id : String) (booking_index : Nat)
    (reason : String) : DeclineOutcome × Data × List Event :=
  match findMaster data user_id with
  | none => (.masterNotFound, data, [.notifyEv user_id "error"])
  | some master =>
    match master.bookings[booking_index]? with
    | none => (.bookingNotFound, data, [.notifyEv user_id "error"])
    | some booking =>
      let booking' := { booking with status := some "declined", decline_reason := some reason }
      let master' := { master with bookings := master.bookings.set booking_index booking' }
      let data' := { data with
        masters := replaceFirstMaster data.masters (fun m => m.telegram_id == some user_id) master' }
      let clientEvs := match booking.client_id with
        | some cid => [Event.notifyEv cid "booking_declined"]
        | none => []
      (.declinedOk, data', [Event.saveEv data', .notifyEv user_id "ack"] ++ clientEvs)

inductive SlotOpOutcome where
  | masterNotFound
  | slotNotFound
  | crashed
  | deletedWithCancel
  | deletedNoBooking
  | cancelledOk
  | bookingNotFound
deriving Repr, DecidableEq

/-- The slot-booking match of `delete_slot` / `cancel_booking`
(`working_bot.py` lines 844-851 and 900-907): the first booking of the
master whose date and start time equal the slot's (looking only at status
`"confirmed"`). -/
def findConfirmedOnSlot (bookings : List Booking) (sd st : String) : Option Booking :=
  bookings.find? fun b =>
    b.slot_date == some sd && b.slot_start_time == some st && b.status == some "confirmed"

/-- `delete_slot` (`working_bot.py` lines 838-886), reached from the
callback dispatcher after the caller's master record is found by chat id.
If a `confirmed` booking sits on the slot, the client is notified FIRST,
then the booking is removed (every value-equal dict, `b != slot_booking`),
then the slot is popped and the document saved.  The slot dict is indexed
directly (`slot['date']` …), so a slot missing those keys raises
(`crashed`: the decorator catches, nothing is saved). -/
def delete_slot (data : Data) (user_id : String) (slot_index : Nat) :
    SlotOpOutcome × Data × List Event :=
  match findMaster data user_id with
  | none => (.masterNotFound, data, [.notifyEv user_id "error"])
  | some master =>
    match master.time_slots[slot_index]? with
    | none => (.slotNotFound, data, [.notifyEv user_id "error"])
    | some slot =>
      match slot.date, slot.start_time, slot.end_time with
      | some sd, some st, some _ =>
        match findConfirmedOnSlot master.bookings sd st with
        | some sb =>
          let clientEvs := match sb.client_id with
            | some cid => if cid != "" then [Event.notifyEv cid "booking_cancelled"] else []
            | none => []
          let master' := { master with
            bookings := master.bookings.filter (fun b => b != sb),
            time_slots := master.time_slots.eraseIdx slot_index }
          let data' := { data with
            masters := replaceFirstMaster data.masters (fun m => m.telegram_id == some user_id) master' }
          (.deletedWithCancel, data', clientEvs ++ [.saveEv data', .notifyEv user_id "ack"])
        | none =>
          let master' := { master with time_slots := master.time_slots.eraseIdx slot_index }
          let data' := { data with
            masters := replaceFirstMaster data.masters (fun m => m.telegram_id == some user_id) master' }
          (.deletedNoBooking, data', [.saveEv data', .notifyEv user_id "ack"])
      | _, _, _ => (.crashed, data, [])

/-- `cancel_booking` (`working_bot.py` lines 888-934): same lookup as
`delete_slot`; when a `confirmed` booking is found the client is notified
FIRST, the booking removed and the document saved (the slot itself stays);
when none is found nothing is saved.  The function never touches the
reminder scheduler. -/
def cancel_booking (data : Data) (user_id : String) (slot_index : Nat) :
    SlotOpOutcome × Data × List Event :=
  match findMaster data user_id with
  | none => (.masterNotFound, data, [.notifyEv user_id "error"])
  | some master =>
    match master.time_slots[slot_index]? with
    | none => (.slotNotFound, data, [.notifyEv user_id "error"])
    | some slot =>
      match slot.date, slot.start_time, slot.end_time with
      | some sd, some st, some _ =>
        match findConfirmedOnSlot master.bookings sd st with
        | some sb =>
          let clientEvs := match sb.client_id with
            | some cid => if cid != "" then [Event.notifyEv cid "booking_cancelled"] else []
            | none => []
          let master' := { master with bookings := master.bookings.filter (fun b => b != sb) }
          let data' := { data with
            masters := replaceFirstMaster data.masters (fun m => m.telegram_id == some user_id) master' }
          (.cancelledOk, data', clientEvs ++ [.saveEv data', .notifyEv user_id "ack"])
        | none => (.bookingNotFound, data, [.notifyEv user_id "error"])
      | _, _, _ => (.crashed, data, [])

inductive DeviceOutcome where
  | deviceNotFound
  | slotNotFound
  | slotUnavailable
  | created
deriving Repr, DecidableEq

/-- Mark the first slot matching `(date, start_time)` as booked
(`process_device_booking`, `working_bot.py` lines 2800-2805). -/
def markSlotBooked : List Slot → String → String → List Slot
  | [], _, _ => []
  | s :: rest, d, st =>
    if s.date == some d && s.start_time == some st then { s with is_booked := true } :: rest
    else s :: markSlotBooked rest d st

/-- `process_device_booking` (`working_bot.py` lines 2718-2835): device
bookings are created directly with status `"confirmed"` (no approval step),
appended to `data["device_bookings"]`, the target device slot is marked
`is_booked`, the document is saved, the client is acked (the ack text
promises a 15-minute reminder) and `schedule_reminder(device_booking,
is_equipment=True)` is called.  The created dict carries `device_name` but
NO `master_name` key. -/
def process_device_booking (data : Data) (user_id user_name device_id date_str start_time : String)
    (bid nowIso : String) (now : Nat) (sched : List Job) :
    DeviceOutcome × Data × List Job × List Event :=
  match data.devices.find? (fun d => d.id == some device_id) with
  | none => (.deviceNotFound, data, sched, [.notifyEv user_id "device_not_found"])
  | some device =>
    match device.time_slots.find? (fun s => s.date == some date_str && s.start_time == some start_time) with
    | none => (.slotNotFound, data, sched, [.notifyEv user_id "slot_not_found"])
    | some target_slot =>
      let is_booked := data.device_bookings.any fun b =>
        b.device_id == some device_id && b.slot_date == some date_str &&
          b.slot_start_time == some start_time && isActiveStatus b
      if is_booked then
        (.slotUnavailable, data, sched, [.notifyEv user_id "slot_unavailable"])
      else
        let device_booking : Booking :=
          { id := some bid, client_id := some user_id, client_name := some user_name,
            device_id := some device_id, device_name := some (device.name.getD "Устройство"),
            slot_date := some date_str, slot_start_time := some start_time,
            slot_end_time := target_slot.end_time,
            slot_location := some (device.location.getD "Заповедник"),
            status := some "confirmed", created_at := some nowIso, is_device := true }
        let device' := { device with
          time_slots := markSlotBooked device.time_slots date_str start_time }
        let data' := { data with
          device_bookings := data.device_bookings ++ [device_booking],
          devices := data.devices.map fun d => if d.id == some device_id then device' else d }
        let sched' := schedule_reminder device_booking true now sched
        (.created, data', sched', [.saveEv data', .notifyEv user_id "device_booked"])

/-! ### Persistence store (`services/safe_data_manager.py`,
`services/backup_manager.py`) -/

/-- The document as `verify_data_integrity` sees it: which of the four
required sections are present, the sizes that feed `has_critical_data`, and
`settings.max_bookings_per_master`.  A file that is absent or fails JSON
parsing is `none` on the file-system side. -/
structure RawDoc where
  hasMasters : Bool := true
  nMasters : Nat := 0
  hasBookings : Bool := true
  nBookings : Nat := 0
  hasDevices : Bool := true
  hasDeviceBookings : Bool := true
  nDeviceBookings : Nat := 0
  maxBookingsPerMaster : Option Nat := none
deriving Repr, DecidableEq

/-- `verify_data_integrity`'s `valid` field (`backup_manager.py` lines
152-205): all of `masters`, `bookings`, `devices`, `device_bookings` are
present. -/
def integrityValid (d : RawDoc) : Bool :=
  d.hasMasters && d.hasBookings && d.hasDevices && d.hasDeviceBookings

/-- `verify_data_integrity`'s `has_critical_data` field: some master,
booking or device booking exists. -/
def hasCriticalData (d : RawDoc) : Bool :=
  0 < d.nMasters || 0 < d.nBookings || 0 < d.nDeviceBookings

/-- `SafeDataManager._create_empty_structure` (`safe_data_manager.py`
lines 71-94): all four sections present and empty,
`settings.max_bookings_per_master = 2`. -/
def emptyStructure : RawDoc :=
  { hasMasters := true, nMasters := 0, hasBookings := true, nBookings := 0,
    hasDevices := true, hasDeviceBookings := true, nDeviceBookings := 0,
    maxBookingsPerMaster := some 2 }

/-- `SafeDataManager._restore_from_latest_backup`: walk the backups newest
first and adopt the first one that is BOTH `valid` and has critical data;
with no such backup, fall back to the fresh empty structure. -/
def restoreFromLatestBackup : List (Option RawDoc) → RawDoc
  | [] => emptyStructure
  | some d :: rest =>
    if integrityValid d && hasCriticalData d then d else restoreFromLatestBackup rest
  | none :: rest => restoreFromLatestBackup rest

/-- `SafeDataManager._load_data_safely` (`safe_data_manager.py` lines
23-46): adopt the main file only when it is valid and has critical data;
on a missing/unparseable/invalid/empty main file fall back to the backup
chain.  Every branch produces a document — the Python originals catch all
exceptions on these paths. -/
def loadDataSafely (mainFile : Option RawDoc) (backups : List (Option RawDoc)) : RawDoc :=
  match mainFile with
  | some d =>
    if integrityValid d && hasCriticalData d then d else restoreFromLatestBackup backups
  | none => restoreFromLatestBackup backups

/-- Modelled from the claim's words for comparison: substitute "the most
recent backup that passes the integrity check" (and the empty structure
when no backup passes it). -/
def specRestoreLatestValid : List (Option RawDoc) → RawDoc
  | [] => emptyStructure
  | some d :: rest => if integrityValid d then d else specRestoreLatestValid rest
  | none :: rest => specRestoreLatestValid rest

/-! ### Claim-side predicates -/

/-- All bookings of the document wherever they are stored: the top-level
mirror used by the by-time path and the per-master lists used by the
by-index path. -/
def allBookings (data : Data) : List Booking :=
  data.bookings ++ data.masters.flatMap (·.bookings)

def countActiveOn (bs : List Booking) (mid sdate stime : String) : Nat :=
  (bs.filter (activeOnTuple mid sdate stime)).length

/-- The double-booking invariant of the claim: at most one active
(pending or confirmed) booking per `(master_id, slot_date, slot_start_time)`
tuple. -/
def atMostOneActive (bs : List Booking) : Prop :=
  ∀ mid sdate stime, countActiveOn bs mid sdate stime ≤ 1

/-- Executable form of the double-booking invariant, quantifying over the
tuples of the bookings actually present. -/
def noDoubleActive (bs : List Booking) : Bool :=
  bs.all fun b =>
    !(isActiveStatus b) ||
      decide ((bs.filter fun b2 =>
        b2.master_id == b.master_id && b2.slot_date == b.slot_date &&
          b2.slot_start_time == b.slot_start_time && isActiveStatus b2).length ≤ 1)

def isSaveEv : Event → Bool
  | .saveEv _ => true
  | _ => false

/-- The write-before-notify discipline of the claim: scanning the effect
trace in program order, every notification must be preceded by at least one
durable save. -/
def writeBeforeNotifyAux : Bool → List Event → Bool
  | _, [] => true
  | _, .saveEv _ :: rest => writeBeforeNotifyAux true rest
  | seenSave, .notifyEv _ _ :: rest => seenSave && writeBeforeNotifyAux seenSave rest

def writeBeforeNotify (tr : List Event) : Bool :=
  writeBeforeNotifyAux false tr

/-! ### Theorems -/

/-- Claim C2 (amended): for every master and reference time `now`,
`count_available_slots` equals exactly the size of the published
`time_slots` minus the slots whose tuple matches an active (pending or
confirmed) booking of the master's list minus the slots whose
`date + start_time` instant is `≤ now`, with a missing or unparseable
`date + start_time` treated as unavailable (fail-closed); the count is a
pure function of the master record and `now`.  The co-cited
`show_slots_by_date` does NOT satisfy this property — see the
counterexample. -/
theorem count_available_slots_eq_spec (master : Master) (now : Nat) :
    count_available_slots master now =
      (specAvailableSlots master.time_slots master.bookings now).length := by
  unfold count_available_slots specAvailableSlots
  rw [List.filter_filter]
  congr 1
  apply List.filter_congr
  intro s _
  cases hd : s.date with
  | none => simp
  | some d =>
    cases hst : s.start_time with
    | none => simp
    | some st =>
      cases hp : parseDT? d st with
      | none => simp [hp]
      | some t => by_cases hb : slotBooked master.bookings s <;> simp [hp, hb, Bool.and_comm]

/-! ### Fixtures -/

def slotA : Slot :=
  { date := some "2025-08-02", start_time := some "14:00",
    end_time := some "15:00", location := some "Sauna" }

def bookingA : Booking :=
  { client_id := some "55", client_name := some "Anna",
    master_id := some "77", master_name := some "Maria",
    slot_date := some "2025-08-02", slot_start_time := some "14:00",
    slot_end_time := some "15:00", location := some "Sauna",
    status := some "pending", created_at := some "t0" }

def masterA : Master :=
  { telegram_id := some "77", name := some "Maria",
    time_slots := [slotA], bookings := [bookingA] }

def dataA : Data := { masters := [masterA] }

/-- Maria's slot with no `start_time` key at all. -/
def slotNoTime : Slot :=
  { date := some "2025-08-02", end_time := some "15:00", location := some "Sauna" }

def dataNoTime : Data :=
  { masters := [{ masterA with time_slots := [slotNoTime], bookings := [] }] }

/-- Claim C2 counterexample, for the co-cited `show_slots_by_date`: a slot
whose `start_time` is missing skips the past-check entirely and is listed
as bookable (fail-open, where the claim demands fail-closed), and a slot
held by Anna's active pending booking — stored in `master["bookings"]` by
the slot-index creation path — is still listed, because the taken-test
consults only the top-level bookings list (empty in `dataA`).  So the
listed set is not `time_slots` minus active-booked minus past. -/
theorem show_slots_by_date_fail_open_and_misses_master_bookings :
    ((show_slots_by_date_listed dataNoTime "2025-08-02"
        (civilMinutes 2026 1 1 0 0)).map fun p => p.2) = [slotNoTime] ∧
      slotNoTime.start_time = none ∧
      ((show_slots_by_date_listed dataA "2025-08-02" 0).map fun p => p.2) = [slotA] ∧
      (masterA.bookings.any fun b =>
        b.slot_date == slotA.date && b.slot_start_time == slotA.start_time &&
          isActiveStatus b) = true := by
  refine ⟨by decide, by decide, by decide, by decide⟩

/-! ### Claim C1 -/

lemma atMostOneActive_append_new (bs : List Booking) (b : Booking) (mid sdate stime : String)
    (hinv : atMostOneActive bs)
    (h1 : b.slot_date = some sdate) (h2 : b.slot_start_time = some stime)
    (h3 : b.master_id = some mid)
    (hnb : bs.any (activeOnTuple mid sdate stime) = false) :
    atMostOneActive (bs ++ [b]) := by
  intro mid' d' t'
  unfold countActiveOn
  rw [List.filter_append, List.length_append]
  by_cases hb : activeOnTuple mid' d' t' b
  · have he : d' = sdate ∧ t' = stime ∧ mid' = mid := by
      unfold activeOnTuple at hb
      simp only [h1, h2, h3, Bool.and_eq_true, beq_iff_eq, Option.some.injEq] at hb
      exact ⟨hb.1.1.1.symm, hb.1.1.2.symm, hb.1.2.symm⟩
    obtain ⟨e1, e2, e3⟩ := he
    subst e1; subst e2; subst e3
    have hz : bs.filter (activeOnTuple mid' d' t') = [] := by
      rw [List.filter_eq_nil_iff]
      intro a ha
      exact (List.any_eq_false.mp hnb) a ha
    simp [hz, List.filter_cons, hb]
  · have : ([b].filter (activeOnTuple mid' d' t')).length = 0 := by
      simp [List.filter_cons, hb]
    rw [this]
    simpa [countActiveOn] using hinv mid' d' t'

/-- Claim C1 (amended): the by-time path `process_time_booking_request`
preserves the at-most-one-active-booking-per-tuple invariant over the
top-level bookings list, and when an active booking already holds the
target tuple it fails (never `created`) without changing the document.
The by-index path `process_booking_request` performs no availability check
at all — see the counterexample. -/
theorem time_booking_preserves_no_double_booking
    (data : Data) (uid uname mid stime sdate bid iso : String) (now : Nat) (sched : List Job)
    (hinv : atMostOneActive data.bookings) :
    atMostOneActive
        (process_time_booking_request data uid uname mid stime sdate bid iso now sched).2.1.bookings ∧
      (data.bookings.any (activeOnTuple mid sdate stime) = true →
        (process_time_booking_request data uid uname mid stime sdate bid iso now sched).1 ≠
            BookOutcome.created ∧
          (process_time_booking_request data uid uname mid stime sdate bid iso now sched).2.1 =
            data) := by
  cases hfm : findMaster data mid with
  | none =>
    refine ⟨?_, fun _ => ?_⟩ <;> simp [process_time_booking_request, hfm]
    exact hinv
  | some master =>
    cases hfs : master.time_slots.find?
        (fun s => s.date == some sdate && s.start_time == some stime) with
    | none =>
      refine ⟨?_, fun _ => ?_⟩ <;> simp [process_time_booking_request, hfm, hfs]
      exact hinv
    | some target =>
      cases hbk : data.bookings.any (activeOnTuple mid sdate stime) with
      | true =>
        refine ⟨?_, fun _ => ?_⟩ <;> simp [process_time_booking_request, hfm, hfs, hbk]
        exact hinv
      | false =>
        refine ⟨?_, fun hb => absurd hb (by simp [hbk])⟩
        by_cases heq : master.is_equipment <;>
          simp [process_time_booking_request, hfm, hfs, hbk, heq] <;>
          exact atMostOneActive_append_new data.bookings _ mid sdate stime hinv rfl rfl rfl hbk

/-- The document whose top-level bookings list carries Anna's pending
14:00 booking. -/
def dataTop : Data := { masters := [masterA], bookings := [bookingA] }

/-- Witness for the amended claim C1 theorem at a concrete document: with
Anna's pending booking in the top-level list, the by-time request for the
same slot is rejected without a state change. -/
theorem time_booking_preserves_no_double_booking_witness :
    (process_time_booking_request dataTop "66" "Boris" "77" "14:00" "2025-08-02" "b1" "t1" 0
          []).1 ≠ BookOutcome.created ∧
      (process_time_booking_request dataTop "66" "Boris" "77" "14:00" "2025-08-02" "b1" "t1" 0
          []).2.1 = dataTop :=
  (time_booking_preserves_no_double_booking dataTop "66" "Boris" "77" "14:00" "2025-08-02" "b1"
      "t1" 0 []
      (by
        intro mid sdate stime
        simp only [dataTop, countActiveOn, List.filter_cons, List.filter_nil]
        split <;> simp)).2 (by decide)

/-- Claim C1 counterexample: `dataA` satisfies the double-booking invariant
(one pending booking holds Maria's 14:00 slot), yet the slot-index booking
path accepts a second request for the very same slot — it returns `created`
rather than failing with `SlotUnavailable`, and the resulting document
violates the invariant with two pending bookings on one tuple. -/
theorem process_booking_request_double_books :
    noDoubleActive (allBookings dataA) = true ∧
      (process_booking_request dataA "66" "Boris" "77" 0 "t1").1 = BookOutcome.created ∧
      noDoubleActive (allBookings (process_booking_request dataA "66" "Boris" "77" 0 "t1").2.1) =
        false := by
  refine ⟨by decide, by decide, by decide⟩

/-! ### Claim C3 -/

def slotB : Slot :=
  { date := some "2025-08-03", start_time := some "10:00",
    end_time := some "11:00", location := some "Banya" }

def slotC : Slot :=
  { date := some "2025-08-04", start_time := some "12:00",
    end_time := some "13:00", location := some "Forest" }

def bookingConfA : Booking := { bookingA with status := some "confirmed" }

def bookingConfB : Booking :=
  { bookingA with
    slot_date := some "2025-08-03", slot_start_time := some "10:00",
    slot_end_time := some "11:00", status := some "confirmed" }

def bookingPendB : Booking :=
  { bookingA with
    slot_date := some "2025-08-03", slot_start_time := some "10:00",
    slot_end_time := some "11:00" }

def masterCap2conf : Master :=
  { masterA with time_slots := [slotA, slotB, slotC], bookings := [bookingConfA, bookingConfB] }

def dataCap2conf : Data := { masters := [masterCap2conf] }

def masterCap2pend : Master :=
  { masterA with time_slots := [slotA, slotB, slotC], bookings := [bookingA, bookingPendB] }

def dataCap2pend : Data := { masters := [masterCap2pend] }

/-- Claim C3 (amended): the slot-index path refuses a booking request and
leaves the document unchanged when the client already holds two or more
bookings with this master whose status is exactly `"confirmed"`.  Pending
bookings are not counted towards the cap, and the by-time path
`process_time_booking_request` enforces no cap at all — see the
counterexample. -/
theorem booking_cap_blocks_at_two_confirmed
    (data : Data) (cid cname mid iso : String) (idx : Nat) (master : Master) (slot : Slot)
    (hM : findMaster data mid = some master)
    (hs : master.time_slots[idx]? = some slot)
    (hcnt : 2 ≤ (master.bookings.filter fun b =>
        b.client_id == some cid && b.status == some "confirmed").length) :
    (process_booking_request data cid cname mid idx iso).1 = BookOutcome.limitExceeded ∧
      (process_booking_request data cid cname mid idx iso).2.1 = data := by
  simp [process_booking_request, hM, hs, hcnt]

/-- Witness for the amended claim C3 theorem: a client with two confirmed
bookings is refused a third slot with the same master. -/
theorem booking_cap_blocks_at_two_confirmed_witness :
    (process_booking_request dataCap2conf "55" "Anna" "77" 2 "t2").1 =
        BookOutcome.limitExceeded ∧
      (process_booking_request dataCap2conf "55" "Anna" "77" 2 "t2").2.1 = dataCap2conf :=
  booking_cap_blocks_at_two_confirmed dataCap2conf "55" "Anna" "77" "t2" 2 masterCap2conf slotC
    (by decide) (by decide) (by decide)

/-- Claim C3 counterexample: the client `55` holds two active (pending)
bookings with master `77`, yet a further request with that master is
accepted — it returns `created` and appends a third booking instead of
failing with `BookingLimitExceeded`, because the source counts only
`"confirmed"` bookings towards the cap. -/
theorem booking_cap_ignores_pending_bookings :
    2 ≤ (masterCap2pend.bookings.filter fun b =>
        b.client_id == some "55" && isActiveStatus b).length ∧
      (process_booking_request dataCap2pend "55" "Anna" "77" 2 "t3").1 = BookOutcome.created ∧
      ((findMaster (process_booking_request dataCap2pend "55" "Anna" "77" 2 "t3").2.1 "77").map
        fun m => m.bookings.length) = some 3 := by
  refine ⟨by decide, by decide, by decide⟩

/-! ### Claim C4 -/

lemma client_master_jobId_ne (a b : String) :
    ("reminder_client_" ++ a) ≠ ("reminder_master_" ++ b) := by
  intro h
  have h2 : ("reminder_client_" ++ a).data = ("reminder_master_" ++ b).data :=
    congrArg String.data h
  rw [String.data_append, String.data_append] at h2
  have h3 := List.append_inj h2 (by decide)
  exact absurd h3.1 (by decide)

lemma find?_replaceFirstMaster (l : List Master) (p : Master → Bool) (m m' : Master)
    (h : l.find? p = some m) (h' : p m' = true) :
    (replaceFirstMaster l p m').find? p = some m' := by
  induction l with
  | nil => simp at h
  | cons a l ih =>
    by_cases pa : p a
    · simp [replaceFirstMaster, pa, List.find?_cons_of_pos _ h']
    · rw [List.find?_cons_of_neg _ pa] at h
      simp [replaceFirstMaster, pa, List.find?_cons_of_neg _ pa, ih h]

def bookingDecl : Booking := { bookingA with status := some "declined" }

def dataDecl : Data := { masters := [{ masterA with bookings := [bookingDecl] }] }

/-- Claim C4 (amended): the confirm branch of `handle_booking_response`
succeeds for ANY booking at a valid index of the caller's own master record
— the current status is not examined — sets the status to `"confirmed"`,
notifies the client, and arms exactly two reminder jobs (one to the client
and one to the master) both at `session_start − 15min`, each scheduled only
when that single fire time is still in the future (a passed fire time is
silently skipped).  No job at `session_start − 60min` exists on this
path. -/
theorem confirm_sets_status_and_arms_two_t15_jobs
    (data : Data) (uid : String) (idx : Nat) (now t : Nat) (master : Master) (booking : Booking)
    (cid d st : String)
    (hM : findMaster data uid = some master)
    (hb : master.bookings[idx]? = some booking)
    (hcid : booking.client_id = some cid)
    (hd : booking.slot_date = some d)
    (hst : booking.slot_start_time = some st)
    (ht : parseDT? d st = some t) :
    (handle_booking_response_confirm data uid idx now []).1 = RespondOutcome.confirmedOk ∧
      bookingAt (handle_booking_response_confirm data uid idx now []).2.1 uid idx =
        some { booking with status := some "confirmed" } ∧
      (handle_booking_response_confirm data uid idx now []).2.2.1 =
        (if now < t - 15 then
          [⟨"reminder_client_" ++ (cid ++ ("_" ++ toString idx)), t - 15, cid⟩,
           ⟨"reminder_master_" ++ (uid ++ ("_" ++ toString idx)), t - 15, uid⟩]
         else []) ∧
      Event.notifyEv cid "booking_confirmed" ∈
        (handle_booking_response_confirm data uid idx now []).2.2.2 := by
  have hne : (("reminder_client_" ++ (cid ++ ("_" ++ toString idx))) ==
      ("reminder_master_" ++ (uid ++ ("_" ++ toString idx)))) = false :=
    beq_eq_false_iff_ne.mpr (client_master_jobId_ne _ _)
  have hlen : idx < master.bookings.length := (List.getElem?_eq_some_iff.mp hb).1
  have hp : (fun m => m.telegram_id == some uid)
      ({ master with bookings := master.bookings.set idx { booking with status := some "confirmed" } }) = true := by
    simpa using List.find?_some hM
  have hfind : findMaster (handle_booking_response_confirm data uid idx now []).2.1 uid =
      some { master with bookings := master.bookings.set idx { booking with status := some "confirmed" } } := by
    by_cases hlt : now < t - 15 <;>
      simp only [handle_booking_response_confirm, hM, hb, hcid, hd, hst, ht, hlt, if_true,
        if_false, add_job, List.any_nil, List.any_cons, hne, Bool.false_or, Bool.or_false,
        List.nil_append, Bool.false_eq_true, if_neg, ite_false, ite_true] <;>
      exact find?_replaceFirstMaster data.masters _ master _ hM hp
  refine ⟨?_, ?_, ?_, ?_⟩
  · by_cases hlt : now < t - 15 <;>
      simp [handle_booking_response_confirm, hM, hb, hcid, hd, hst, ht, hlt, add_job, hne]
  · rw [bookingAt, hfind]
    simp [List.getElem?_set_self hlen]
  · by_cases hlt : now < t - 15 <;>
      simp [handle_booking_response_confirm, hM, hb, hcid, hd, hst, ht, hlt, add_job, hne]
  · by_cases hlt : now < t - 15 <;>
      simp [handle_booking_response_confirm, hM, hb, hcid, hd, hst, ht, hlt, add_job, hne]

/-- Witness for the amended claim C4 theorem: confirming Anna's pending
booking two hours before the session arms the two 13:45 jobs. -/
theorem confirm_sets_status_and_arms_two_t15_jobs_witness :
    (handle_booking_response_confirm dataA "77" 0 (civilMinutes 2025 8 2 12 0) []).1 =
        RespondOutcome.confirmedOk ∧
      bookingAt (handle_booking_response_confirm dataA "77" 0 (civilMinutes 2025 8 2 12 0)
            []).2.1 "77" 0 =
        some { bookingA with status := some "confirmed" } ∧
      (handle_booking_response_confirm dataA "77" 0 (civilMinutes 2025 8 2 12 0) []).2.2.1 =
        (if civilMinutes 2025 8 2 12 0 < civilMinutes 2025 8 2 14 0 - 15 then
          [⟨"reminder_client_" ++ ("55" ++ ("_" ++ toString 0)),
            civilMinutes 2025 8 2 14 0 - 15, "55"⟩,
           ⟨"reminder_master_" ++ ("77" ++ ("_" ++ toString 0)),
            civilMinutes 2025 8 2 14 0 - 15, "77"⟩]
         else []) ∧
      Event.notifyEv "55" "booking_confirmed" ∈
        (handle_booking_response_confirm dataA "77" 0 (civilMinutes 2025 8 2 12 0) []).2.2.2 :=
  confirm_sets_status_and_arms_two_t15_jobs dataA "77" 0 (civilMinutes 2025 8 2 12 0)
    (civilMinutes 2025 8 2 14 0) masterA bookingA "55" "2025-08-02" "14:00"
    (by decide) (by decide) rfl rfl rfl (by decide)

/-- Claim C4 counterexample: confirming the pending 14:00 booking at 12:00
arms exactly two jobs, both at 13:45 (`session − 15min`) — no job at 13:00
(`session − 60min`) is ever armed, contradicting the claimed pair of
reminder times; and the pending-status guard claimed for the transition
does not exist: confirming the already-declined booking of `dataDecl`
succeeds and overwrites its status with `"confirmed"`. -/
theorem confirm_has_no_one_hour_reminder_and_no_pending_guard :
    (handle_booking_response_confirm dataA "77" 0 (civilMinutes 2025 8 2 12 0) []).2.2.1 =
        [⟨"reminder_client_55_0", civilMinutes 2025 8 2 13 45, "55"⟩,
         ⟨"reminder_master_77_0", civilMinutes 2025 8 2 13 45, "77"⟩] ∧
      ((handle_booking_response_confirm dataA "77" 0 (civilMinutes 2025 8 2 12 0) []).2.2.1.filter
          fun j => j.run_date == civilMinutes 2025 8 2 13 0) = [] ∧
      (handle_booking_response_confirm dataDecl "77" 0 (civilMinutes 2025 8 2 12 0) []).1 =
        RespondOutcome.confirmedOk ∧
      bookingAt (handle_booking_response_confirm dataDecl "77" 0 (civilMinutes 2025 8 2 12 0)
            []).2.1 "77" 0 =
        some { bookingDecl with status := some "confirmed" } := by
  refine ⟨by decide, by decide, by decide, by decide⟩

/-! ### Claim C5 -/

/-- The system-level cancel step: `cancel_booking` (`working_bot.py` lines
888-934) contains no scheduler call at all, so the armed job list is passed
through unchanged while the document is mutated. -/
def cancel_booking_system (data : Data) (user_id : String) (slot_index : Nat)
    (sched : List Job) : SlotOpOutcome × Data × List Job × List Event :=
  let r := cancel_booking data user_id slot_index
  (r.1, r.2.1, sched, r.2.2)

/-- Claim C5 (amended): cancelling a booking removes it from the document
and notifies the client, but removes NO reminder job from the scheduler:
every job armed before the cancellation is still armed afterwards and still
fires at its run date, sending its reminder notification. -/
theorem cancel_leaves_reminders_armed
    (data : Data) (uid : String) (idx : Nat) (sched : List Job) (j : Job) (t : Nat)
    (hj : j ∈ sched) (ht : j.run_date ≤ t) :
    (cancel_booking_system data uid idx sched).2.2.1 = sched ∧
      Event.notifyEv j.chat_id "reminder" ∈
        (fire_due (cancel_booking_system data uid idx sched).2.2.1 t).2 := by
  refine ⟨rfl, ?_⟩
  show Event.notifyEv j.chat_id "reminder" ∈ (fire_due sched t).2
  exact List.mem_map_of_mem _ (List.mem_filter.mpr ⟨hj, by simp [ht]⟩)

/-- Witness for the amended claim C5 theorem. -/
theorem cancel_leaves_reminders_armed_witness :
    (cancel_booking_system dataA "77" 0 [⟨"reminder_client_55_0", 5, "55"⟩]).2.2.1 =
        [⟨"reminder_client_55_0", 5, "55"⟩] ∧
      Event.notifyEv "55" "reminder" ∈
        (fire_due (cancel_booking_system dataA "77" 0
            [⟨"reminder_client_55_0", 5, "55"⟩]).2.2.1 5).2 :=
  cancel_leaves_reminders_armed dataA "77" 0 [⟨"reminder_client_55_0", 5, "55"⟩]
    ⟨"reminder_client_55_0", 5, "55"⟩ 5 (by simp) (by decide)

/-- Confirm Anna's 14:00 booking at 12:00 (arming the two 13:45 jobs) … -/
def cancelScen1 : RespondOutcome × Data × List Job × List Event :=
  handle_booking_response_confirm dataA "77" 0 (civilMinutes 2025 8 2 12 0) []

/-- … then the master cancels that confirmed booking before any reminder
has fired. -/
def cancelScen2 : SlotOpOutcome × Data × List Job × List Event :=
  cancel_booking_system cancelScen1.2.1 "77" 0 cancelScen1.2.2.1

/-- Claim C5 counterexample: after the confirmed 14:00 booking is cancelled
at the source's `cancel_booking`, the booking is gone from the document,
yet both 13:45 reminder jobs are still armed — nothing removes them — and
at 13:45 the dispatcher fires them, sending reminder notifications to the
client and the master of the cancelled booking instead of the claimed
zero. -/
theorem cancelled_booking_still_gets_reminder_notifications :
    cancelScen2.1 = SlotOpOutcome.cancelledOk ∧
      ((findMaster cancelScen2.2.1 "77").map fun m => m.bookings) = some [] ∧
      cancelScen2.2.2.1 =
        [⟨"reminder_client_55_0", civilMinutes 2025 8 2 13 45, "55"⟩,
         ⟨"reminder_master_77_0", civilMinutes 2025 8 2 13 45, "77"⟩] ∧
      (fire_due cancelScen2.2.2.1 (civilMinutes 2025 8 2 13 45)).2 =
        [Event.notifyEv "55" "reminder", Event.notifyEv "77" "reminder"] := by
  refine ⟨by decide, by decide, by decide, by decide⟩

/-! ### Claim C6 -/

def slotDev : Slot :=
  { date := some "2025-08-02", start_time := some "09:00",
    end_time := some "09:30", location := some "Lab" }

def deviceA : Device :=
  { id := some "vibro_chair", name := some "Виброкресло",
    location := some "Лаборатория", time_slots := [slotDev] }

def dataDev : Data := { devices := [deviceA] }

/-- Booking a device slot the day before the session. -/
def devScen : DeviceOutcome × Data × List Job × List Event :=
  process_device_booking dataDev "55" "Carl" "vibro_chair" "2025-08-02" "09:00" "bid1" "t0"
    (civilMinutes 2025 8 1 12 0) []

def eqMaster : Master :=
  { telegram_id := some "99", name := some "Кресло", time_slots := [slotDev],
    is_equipment := true }

def dataEq : Data := { masters := [eqMaster] }

/-- Booking the same slot on an `is_equipment` master through the by-time
path, the day before the session. -/
def eqScen : BookOutcome × Data × List Job × List Event :=
  process_time_booking_request dataEq "55" "Carl" "99" "09:00" "2025-08-02" "b9" "t0"
    (civilMinutes 2025 8 1 12 0) []

/-- The booking statuses a save event persisted (`none` for a notify). -/
def savedStatuses : Event → Option (List (Option String))
  | .saveEv d => some (d.bookings.map (·.status))
  | .notifyEv _ _ => none

/-- Claim C6 (code bug): `process_device_booking` does create the device
booking directly in `"confirmed"` with no approval step and both reminder
fire times are still in the future, yet NO reminder job is armed — the
created dict has no `master_name` key, so `schedule_single_reminder`'s
message builder raises `KeyError` which is silently swallowed, while the
handler's own ack text promises a 15-minute reminder.  On the by-time
equipment path the reminders are armed, but the booking is first persisted
with status `"pending"` and only the second save flips it to
`"confirmed"`. -/
theorem device_booking_confirmed_but_reminders_never_armed :
    devScen.1 = DeviceOutcome.created ∧
      devScen.2.1.device_bookings.map (·.status) = [some "confirmed"] ∧
      civilMinutes 2025 8 1 12 0 < civilMinutes 2025 8 2 9 0 - 60 ∧
      devScen.2.2.1 = [] ∧
      eqScen.1 = BookOutcome.created ∧
      eqScen.2.2.2.map savedStatuses = [some [some "pending"], some [some "confirmed"], none] ∧
      eqScen.2.2.1.length = 2 := by
  refine ⟨by decide, by decide, by decide, by decide, by decide, by decide, by decide⟩

/-! ### Claim C7 -/

/-- The master record with the booking at `idx` marked declined. -/
def declinedUpd (master : Master) (idx : Nat) (booking : Booking) (reason : String) : Master :=
  { master with
    bookings := master.bookings.set idx
      { booking with status := some "declined", decline_reason := some reason } }

/-- Claim C7 (amended): the decline operation is a two-step protocol whose
second step records the supplied follow-up text as `decline_reason` on the
booking, marks it `"declined"`, saves, and forwards the reason to the
client; the recorded reason is non-empty exactly when the supplied text is
— the source never validates the text for emptiness. -/
theorem decline_records_supplied_reason
    (data : Data) (uid reason : String) (idx : Nat) (master : Master) (booking : Booking)
    (hM : findMaster data uid = some master)
    (hb : master.bookings[idx]? = some booking)
    (hr : reason ≠ "") :
    (process_decline_reason data uid idx reason).1 = DeclineOutcome.declinedOk ∧
      bookingAt (process_decline_reason data uid idx reason).2.1 uid idx =
        some { booking with status := some "declined", decline_reason := some reason } ∧
      (some reason : Option String) ≠ some "" ∧
      (∀ cid, booking.client_id = some cid →
        Event.notifyEv cid "booking_declined" ∈ (process_decline_reason data uid idx reason).2.2) := by
  have hlen : idx < master.bookings.length := (List.getElem?_eq_some_iff.mp hb).1
  have hp : (fun m => m.telegram_id == some uid) (declinedUpd master idx booking reason) = true := by
    simpa [declinedUpd] using List.find?_some hM
  refine ⟨?_, ?_, by simpa using hr, ?_⟩
  · simp [process_decline_reason, hM, hb]
  · have hfind : findMaster (process_decline_reason data uid idx reason).2.1 uid =
        some (declinedUpd master idx booking reason) := by
      simp only [process_decline_reason, hM, hb]
      exact find?_replaceFirstMaster data.masters _ master _ hM hp
    rw [bookingAt, hfind]
    simp [declinedUpd, List.getElem?_set_self hlen]
  · intro cid hcid
    simp [process_decline_reason, hM, hb, hcid]

/-- Witness for the amended claim C7 theorem. -/
theorem decline_records_supplied_reason_witness :
    (process_decline_reason dataA "77" 0 "болею").1 = DeclineOutcome.declinedOk ∧
      bookingAt (process_decline_reason dataA "77" 0 "болею").2.1 "77" 0 =
        some { bookingA with status := some "declined", decline_reason := some "болею" } ∧
      Event.notifyEv "55" "booking_declined" ∈ (process_decline_reason dataA "77" 0 "болею").2.2 :=
  have h := decline_records_supplied_reason dataA "77" "болею" 0 masterA bookingA
    (by decide) (by decide) (by decide)
  ⟨h.1, h.2.1, h.2.2.2 "55" rfl⟩

/-- Claim C7 counterexample: feeding the empty string as the follow-up
message makes the booking reach status `"declined"` with an empty recorded
`decline_reason` — the source stores the text unconditionally and never
enforces non-emptiness. -/
theorem decline_with_empty_reason_reaches_declined :
    (process_decline_reason dataA "77" 0 "").1 = DeclineOutcome.declinedOk ∧
      bookingAt (process_decline_reason dataA "77" 0 "").2.1 "77" 0 =
        some { bookingA with status := some "declined", decline_reason := some "" } := by
  refine ⟨by decide, by decide⟩

/-! ### Claim C8 -/

def dataConf : Data := { masters := [{ masterA with bookings := [bookingConfA] }] }

/-- Claim C8 (amended): on the booking-creation path the document is saved
before any notification is sent, but on `delete_slot` the client's
cancellation notice is sent BEFORE the mutation is saved (the cascade
needs the booking's client reference, and the source notifies first), so
the write-before-notify discipline does not hold on every mutation
path. -/
theorem save_before_notify_holds_on_create_but_not_delete :
    (∀ data cid cname mid idx iso,
        (process_booking_request data cid cname mid idx iso).1 = BookOutcome.created →
          writeBeforeNotify (process_booking_request data cid cname mid idx iso).2.2 = true) ∧
      (∀ data uid i cid,
        Event.notifyEv cid "booking_cancelled" ∈ (delete_slot data uid i).2.2 →
          writeBeforeNotify (delete_slot data uid i).2.2 = false) := by
  constructor
  · intro data cid cname mid idx iso h
    cases hfm : findMaster data mid with
    | none => simp [process_booking_request, hfm] at h
    | some master =>
      cases hs : master.time_slots[idx]? with
      | none => simp [process_booking_request, hfm, hs] at h
      | some slot =>
        by_cases hc : 2 ≤ (master.bookings.filter fun b =>
            b.client_id == some cid && b.status == some "confirmed").length
        · simp [process_booking_request, hfm, hs, hc] at h
        · simp [process_booking_request, hfm, hs, hc, writeBeforeNotify, writeBeforeNotifyAux]
  · intro data uid i cid h
    cases hfm : findMaster data uid with
    | none => simp [delete_slot, hfm] at h
    | some master =>
      cases hs : master.time_slots[i]? with
      | none => simp [delete_slot, hfm, hs] at h
      | some slot =>
        cases hd : slot.date with
        | none => simp [delete_slot, hfm, hs, hd] at h
        | some sd =>
          cases hst : slot.start_time with
          | none => simp [delete_slot, hfm, hs, hd, hst] at h
          | some st =>
            cases hed : slot.end_time with
            | none => simp [delete_slot, hfm, hs, hd, hst, hed] at h
            | some ed =>
              cases hfb : findConfirmedOnSlot master.bookings sd st with
              | none => simp [delete_slot, hfm, hs, hd, hst, hed, hfb] at h
              | some sb =>
                cases hcid : sb.client_id with
                | none => simp [delete_slot, hfm, hs, hd, hst, hed, hfb, hcid] at h
                | some c =>
                  by_cases hc : c != ""
                  · simp [delete_slot, hfm, hs, hd, hst, hed, hfb, hcid, hc,
                      writeBeforeNotify, writeBeforeNotifyAux]
                  · simp [delete_slot, hfm, hs, hd, hst, hed, hfb, hcid, hc] at h

/-- Witness for the amended claim C8 theorem: the create path saves first;
the delete path notifies the client of the confirmed 14:00 booking before
saving. -/
theorem save_before_notify_holds_on_create_but_not_delete_witness :
    writeBeforeNotify (process_booking_request dataA "66" "Boris" "77" 0 "t1").2.2 = true ∧
      writeBeforeNotify (delete_slot dataConf "77" 0).2.2 = false :=
  ⟨save_before_notify_holds_on_create_but_not_delete.1 dataA "66" "Boris" "77" 0 "t1" (by decide),
   save_before_notify_holds_on_create_but_not_delete.2 dataConf "77" 0 "55" (by decide)⟩

/-- Claim C8 counterexample: deleting the slot that carries Anna's
confirmed booking sends her the cancellation notice as the FIRST effect,
before the mutated document is saved (the save is the second effect), so a
crash between the two leaves a notified-but-unremoved booking. -/
theorem delete_slot_notifies_before_save :
    (delete_slot dataConf "77" 0).1 = SlotOpOutcome.deletedWithCancel ∧
      (delete_slot dataConf "77" 0).2.2.head? = some (Event.notifyEv "55" "booking_cancelled") ∧
      ((delete_slot dataConf "77" 0).2.2.filter isSaveEv).length = 1 ∧
      writeBeforeNotify (delete_slot dataConf "77" 0).2.2 = false := by
  refine ⟨by decide, by decide, by decide, by decide⟩

/-! ### Claim C9 -/

/-- Serialized execution of a batch of by-time booking requests, each given
as `(user_id, booking id)`, all aimed at the same `(master, date, time)`
tuple.  The handler body from `load_data()` to `save_data(data)` contains
no `await`, and the telegram application of `main()` is built without
`concurrent_updates`, so the event loop runs each check-then-write section
to completion before the next request's section starts: interleaved
executions coincide with this fold. -/
def runRequests (mid stime sdate : String) (now : Nat) :
    Data → List (String × String) → Data × List BookOutcome
  | data, [] => (data, [])
  | data, (uid, bid) :: rest =>
    let r := process_time_booking_request data uid uid mid stime sdate bid "t" now []
    let rr := runRequests mid stime sdate now r.2.1 rest
    (rr.1, r.1 :: rr.2)

lemma booked_request_unavailable
    (data : Data) (uid uname mid stime sdate bid iso : String) (now : Nat) (sched : List Job)
    (master : Master) (slot : Slot)
    (hM : findMaster data mid = some master)
    (hs : master.time_slots.find?
        (fun s => s.date == some sdate && s.start_time == some stime) = some slot)
    (hbk : data.bookings.any (activeOnTuple mid sdate stime) = true) :
    process_time_booking_request data uid uname mid stime sdate bid iso now sched =
      (.slotUnavailable, data, sched, [.notifyEv uid "slot_unavailable"]) := by
  simp [process_time_booking_request, hM, hs, hbk]

lemma runRequests_all_unavailable
    (mid stime sdate : String) (now : Nat) (data : Data) (reqs : List (String × String))
    (master : Master) (slot : Slot)
    (hM : findMaster data mid = some master)
    (hs : master.time_slots.find?
        (fun s => s.date == some sdate && s.start_time == some stime) = some slot)
    (hbk : data.bookings.any (activeOnTuple mid sdate stime) = true) :
    runRequests mid stime sdate now data reqs =
      (data, reqs.map fun _ => BookOutcome.slotUnavailable) := by
  induction reqs with
  | nil => rfl
  | cons p rest ih =>
    obtain ⟨uid, bid⟩ := p
    rw [runRequests, booked_request_unavailable data uid uid mid stime sdate bid "t" now []
      master slot hM hs hbk]
    simp [ih]

/-- The booking dict appended by `process_time_booking_request`, after the
equipment auto-confirm flip when `equip` holds. -/
def newTimeBooking (uid uname mid stime sdate bid iso mname : String) (slot : Slot)
    (equip : Bool) : Booking :=
  { id := some bid, client_id := some uid, client_name := some uname,
    master_id := some mid, master_name := some mname,
    slot_date := some sdate, slot_start_time := some stime,
    slot_end_time := slot.end_time,
    slot_location := some (slot.location.getD "Локация не указана"),
    status := some (if equip then "confirmed" else "pending"), created_at := some iso,
    is_equipment := equip }

lemma newTimeBooking_active (uid uname mid stime sdate bid iso mname : String) (slot : Slot)
    (equip : Bool) :
    activeOnTuple mid sdate stime
      (newTimeBooking uid uname mid stime sdate bid iso mname slot equip) = true := by
  cases equip <;> simp [newTimeBooking, activeOnTuple, isActiveStatus]

lemma fresh_request_created
    (data : Data) (uid uname mid stime sdate bid iso : String) (now : Nat) (sched : List Job)
    (master : Master) (slot : Slot)
    (hM : findMaster data mid = some master)
    (hs : master.time_slots.find?
        (fun s => s.date == some sdate && s.start_time == some stime) = some slot)
    (hnb : data.bookings.any (activeOnTuple mid sdate stime) = false) :
    (process_time_booking_request data uid uname mid stime sdate bid iso now sched).1 =
        BookOutcome.created ∧
      (process_time_booking_request data uid uname mid stime sdate bid iso now sched).2.1 =
        { data with bookings := data.bookings ++
            [newTimeBooking uid uname mid stime sdate bid iso (master.name.getD "Мастер") slot
              master.is_equipment] } := by
  by_cases heq : master.is_equipment <;>
    simp [process_time_booking_request, hM, hs, hnb, heq, newTimeBooking]

/-- Claim C9: when N by-time booking requests aimed at the same
`(master_id, slot_date, slot_start_time)` tuple run against a document in
which the target slot exists and carries no active booking, exactly one
request succeeds and the other N−1 fail with the slot-unavailable outcome.
The check-then-write section of `process_time_booking_request` contains no
`await` and the application processes updates sequentially, so concurrent
arrivals execute as some serialization of these sections, which this fold
models. -/
theorem concurrent_time_bookings_one_success
    (data : Data) (mid stime sdate : String) (now : Nat) (master : Master) (slot : Slot)
    (reqs : List (String × String))
    (hM : findMaster data mid = some master)
    (hs : master.time_slots.find?
        (fun s => s.date == some sdate && s.start_time == some stime) = some slot)
    (hnb : data.bookings.any (activeOnTuple mid sdate stime) = false)
    (hne : reqs ≠ []) :
    (runRequests mid stime sdate now data reqs).2.count BookOutcome.created = 1 ∧
      (runRequests mid stime sdate now data reqs).2.count BookOutcome.slotUnavailable =
        reqs.length - 1 := by
  cases reqs with
  | nil => exact absurd rfl hne
  | cons p rest =>
    obtain ⟨uid, bid⟩ := p
    obtain ⟨h1, h2⟩ :=
      fresh_request_created data uid uid mid stime sdate bid "t" now [] master slot hM hs hnb
    have hbk1 : ({ data with bookings := data.bookings ++
        [newTimeBooking uid uid mid stime sdate bid "t" (master.name.getD "Мастер") slot
          master.is_equipment] } : Data).bookings.any (activeOnTuple mid sdate stime) = true := by
      simp [List.any_append, newTimeBooking_active]
    simp only [runRequests, h1, h2]
    rw [runRequests_all_unavailable mid stime sdate now
      ({ data with bookings := data.bookings ++
        [newTimeBooking uid uid mid stime sdate bid "t" (master.name.getD "Мастер") slot
          master.is_equipment] }) rest master slot hM hs hbk1]
    simp [List.count_cons, List.count_replicate]

def masterFree : Master := { masterA with bookings := [] }

def dataFree : Data := { masters := [masterFree] }

/-- Witness for the claim C9 theorem: three requests for Maria's free
14:00 slot — one `created`, two `slotUnavailable`. -/
theorem concurrent_time_bookings_one_success_witness :
    (runRequests "77" "14:00" "2025-08-02" 0 dataFree
        [("55", "b1"), ("66", "b2"), ("88", "b3")]).2.count BookOutcome.created = 1 ∧
      (runRequests "77" "14:00" "2025-08-02" 0 dataFree
        [("55", "b1"), ("66", "b2"), ("88", "b3")]).2.count BookOutcome.slotUnavailable =
        ([("55", "b1"), ("66", "b2"), ("88", "b3")] : List (String × String)).length - 1 :=
  concurrent_time_bookings_one_success dataFree "77" "14:00" "2025-08-02" 0 masterFree slotA
    [("55", "b1"), ("66", "b2"), ("88", "b3")]
    (by decide) (by decide) (by decide) (by decide)

/-! ### Claim C10 -/

lemma restoreFromLatestBackup_valid (backups : List (Option RawDoc)) :
    integrityValid (restoreFromLatestBackup backups) = true := by
  induction backups with
  | nil => rfl
  | cons b rest ih =>
    cases b with
    | none => simpa [restoreFromLatestBackup] using ih
    | some d =>
      by_cases hd : (integrityValid d && hasCriticalData d) = true
      · have := (Bool.and_eq_true _ _).mp hd
        simp [restoreFromLatestBackup, hd, this.1, this.2]
      · simpa [restoreFromLatestBackup, hd] using ih

lemma restoreFromLatestBackup_all_bad (backups : List (Option RawDoc))
    (h : (backups.all fun b => b.all fun d => !(integrityValid d && hasCriticalData d)) = true) :
    restoreFromLatestBackup backups = emptyStructure := by
  induction backups with
  | nil => rfl
  | cons b rest ih =>
    rw [List.all_cons, Bool.and_eq_true] at h
    cases b with
    | none => simpa [restoreFromLatestBackup] using ih h.2
    | some d =>
      have hd : (integrityValid d && hasCriticalData d) = false := by
        simpa only [Option.all_some, Bool.not_eq_true'] using h.1
      simpa [restoreFromLatestBackup, hd] using ih h.2

/-- Claim C10 (amended): the safe load is total and always yields a
document with all four required sections; a missing, unparseable, invalid
or critical-data-free main file makes it fall back to the backup chain,
which adopts the most recent backup that is BOTH integrity-valid and holds
critical data (skipping valid-but-empty newer backups — see the
counterexample), and when no backup qualifies it substitutes the fresh
empty structure whose `settings.max_bookings_per_master` is `2`. -/
theorem load_data_safely_well_formed (mainFile : Option RawDoc)
    (backups : List (Option RawDoc)) :
    integrityValid (loadDataSafely mainFile backups) = true ∧
      ((mainFile.all fun d => !(integrityValid d && hasCriticalData d)) = true →
        loadDataSafely mainFile backups = restoreFromLatestBackup backups) ∧
      (∀ d rest, backups = some d :: rest → (integrityValid d && hasCriticalData d) = true →
        restoreFromLatestBackup backups = d) ∧
      (∀ d rest, backups = some d :: rest → (integrityValid d && hasCriticalData d) = false →
        restoreFromLatestBackup backups = restoreFromLatestBackup rest) ∧
      ((backups.all fun b => b.all fun d => !(integrityValid d && hasCriticalData d)) = true →
        restoreFromLatestBackup backups = emptyStructure ∧
          (restoreFromLatestBackup backups).maxBookingsPerMaster = some 2) := by
  refine ⟨?_, ?_, ?_, ?_, ?_⟩
  · cases mainFile with
    | none => simpa [loadDataSafely] using restoreFromLatestBackup_valid backups
    | some d =>
      by_cases hd : (integrityValid d && hasCriticalData d) = true
      · have := (Bool.and_eq_true _ _).mp hd
        simp [loadDataSafely, hd, this.1, this.2]
      · simpa [loadDataSafely, hd] using restoreFromLatestBackup_valid backups
  · intro h
    cases mainFile with
    | none => rfl
    | some d =>
      have hd : (integrityValid d && hasCriticalData d) = false := by
        simpa only [Option.all_some, Bool.not_eq_true'] using h
      simp [loadDataSafely, hd]
  · intro d rest hbk hd
    subst hbk
    simp [restoreFromLatestBackup, hd]
  · intro d rest hbk hd
    subst hbk
    simp [restoreFromLatestBackup, hd]
  · intro h
    refine ⟨restoreFromLatestBackup_all_bad backups h, ?_⟩
    rw [restoreFromLatestBackup_all_bad backups h]
    rfl

/-- Witness for the amended claim C10 theorem at a missing main file with
no backups: the load substitutes the fresh empty structure. -/
theorem load_data_safely_well_formed_witness :
    integrityValid (loadDataSafely none []) = true ∧
      loadDataSafely none [] = restoreFromLatestBackup [] ∧
      restoreFromLatestBackup ([] : List (Option RawDoc)) = emptyStructure ∧
      (restoreFromLatestBackup ([] : List (Option RawDoc))).maxBookingsPerMaster = some 2 :=
  ⟨(load_data_safely_well_formed none []).1,
   (load_data_safely_well_formed none []).2.1 (by decide),
   ((load_data_safely_well_formed none []).2.2.2.2 (by decide)).1,
   ((load_data_safely_well_formed none []).2.2.2.2 (by decide)).2⟩

/-- A backup that parses and has all four sections but holds no critical
data. -/
def docEmptyValid : RawDoc := { emptyStructure with maxBookingsPerMaster := none }

/-- An older backup that is valid and does hold critical data. -/
def docCrit : RawDoc := { emptyStructure with nMasters := 1, maxBookingsPerMaster := none }

/-- Claim C10 counterexample: with an unreadable main file, a most-recent
backup that passes the integrity check but holds no critical data, and an
older backup with critical data, the source adopts the OLDER backup —
not "the most recent backup that passes the integrity check" as the claim
words it (that would be `docEmptyValid`). -/
theorem load_skips_valid_but_empty_latest_backup :
    integrityValid docEmptyValid = true ∧
      loadDataSafely none [some docEmptyValid, some docCrit] = docCrit ∧
      specRestoreLatestValid [some docEmptyValid, some docCrit] = docEmptyValid ∧
      docCrit ≠ docEmptyValid := by
  refine ⟨by decide, by decide, by decide, by decide⟩

end Mintoctopus
